import Mathlib

/-!
Verification of the authorization subsystem of the smart-info-navigator
repository.  The handlers under scrutiny are the ones embedded in
`src/unnamed/part_006` (file `mcp-server/src/auth/oauth.py`: `authorize` and
`token`; file `mcp-server/src/auth/middleware.py`: `get_current_user`).  The
embedding below translates those handlers directly; auxiliary services used
but not defined in that file (`generate_auth_code`, `get_or_create_user`, the
Redis client, PyJWT) are modelled at the granularity the handlers use them.
-/

namespace SIN

/-! ## Redis model

The handlers use exactly three Redis operations: `setex key ttl value`,
`get key` and `delete key`.  A store is a list of `(key, value, expiresAt)`
entries; `setex` replaces any previous entry for the key, and `get` returns
the value only while the current time is strictly before `expiresAt`
(an expired key behaves as absent, as in Redis). -/

abbrev Store : Type := List (String × String × Nat)

def redisDel : Store → String → Store
  | [], _ => []
  | e :: rest, k => if e.1 = k then redisDel rest k else e :: redisDel rest k

def redisGet : Store → String → Nat → Option String
  | [], _, _ => none
  | e :: rest, k, now =>
      if e.1 = k then (if now < e.2.2 then some e.2.1 else none)
      else redisGet rest k now

def redisSetex (st : Store) (k : String) (ttl : Nat) (v : String) (now : Nat) : Store :=
  (k, v, now + ttl) :: redisDel st k

/-! ## Users

`mcp-server/src/models/database.py` (also in `src/unnamed/part_006`): a user
row has a primary key `id` and a unique `oauth_sub`. -/

structure UserRec where
  id : String
  oauth_sub : String
deriving DecidableEq, Repr

def findUserSub (sub : String) : List UserRec → Option UserRec
  | [] => none
  | u :: rest => if u.oauth_sub = sub then some u else findUserSub sub rest

def findUserId (uid : String) : List UserRec → Option UserRec
  | [] => none
  | u :: rest => if u.id = uid then some u else findUserId uid rest

/-- Modelled from the spec: `get_or_create_user` is called in
`src/unnamed/part_006` (the `token` handler) but not defined among the source
files.  The spec's glossary defines get-or-create as "an idempotent lookup
that creates the record on first miss and returns it on all subsequent
lookups for the same key", keyed by the unique external subject identifier.
`freshId` stands for the randomly generated primary key of a newly created
row. -/
def get_or_create_user (db : List UserRec) (sub : String) (freshId : String) :
    UserRec × List UserRec :=
  match findUserSub sub db with
  | some u => (u, db)
  | none => (⟨freshId, sub⟩, db ++ [⟨freshId, sub⟩])

/-! ## JWT model

PyJWT as used by the handlers: `jwt.encode(payload, secret, algorithm)` signs
the payload with the secret; `jwt.decode(token, secret, algorithms)` first
verifies the signature (raising `InvalidTokenError` on mismatch) and then the
`exp` claim (raising `ExpiredSignatureError` when `exp <= now`).  A compact
token is modelled as its payload together with the key it was signed with;
signature verification is key equality. -/

structure JwtPayload where
  sub : String
  user_id : String
  exp : Nat
deriving DecidableEq, Repr

structure Jwt where
  payload : JwtPayload
  key : String
deriving DecidableEq, Repr

inductive JwtErr where
  | expiredSignature
  | invalidToken
deriving DecidableEq, Repr

def jwtDecode (tok : Jwt) (secret : String) (now : Nat) : Except JwtErr JwtPayload :=
  if tok.key ≠ secret then .error .invalidToken
  else if tok.payload.exp ≤ now then .error .expiredSignature
  else .ok tok.payload

/-! ## HTTP-level values -/

structure HttpError where
  status : Nat
  detail : String
deriving DecidableEq, Repr

/-- The success body the `token` handler returns:
`{"access_token": ..., "token_type": "Bearer", "expires_in": 3600}`. -/
structure TokenSuccess where
  access_token : Jwt
  token_type : String
  expires_in : Nat
deriving DecidableEq, Repr

inductive JVal where
  | str (s : String)
  | num (n : Nat)
  | tok (j : Jwt)
deriving DecidableEq, Repr

/-- The JSON object literally returned by the `token` handler on success,
as a key/value list in source order. -/
def tokenJson (t : TokenSuccess) : List (String × JVal) :=
  [("access_token", .tok t.access_token),
   ("token_type", .str t.token_type),
   ("expires_in", .num t.expires_in)]

def pLookup {β : Type} (k : String) : List (String × β) → Option β
  | [] => none
  | e :: rest => if e.1 = k then some e.2 else pLookup k rest

/-! ## The `/authorize` handler

`src/unnamed/part_006`, `mcp-server/src/auth/oauth.py`:

the handler takes the single parameter `redirect_uri`, generates a code with
`generate_auth_code()` (not defined among the source files; its fresh
high-entropy value is passed in as `fresh`), stores
`auth_code:{code} -> redirect_uri` with a 300 second TTL and redirects to
`redirect_uri?code={code}`.  It reads no `client_id`, no `code_challenge`
and consults no client registry. -/

def authorize (redirect_uri : String) (fresh : String) (st : Store) (now : Nat) :
    String × Store :=
  (redirect_uri ++ "?code=" ++ fresh,
   redisSetex st ("auth_code:" ++ fresh) 300 redirect_uri now)

/-- FastAPI layer for `/authorize`: `redirect_uri` is a required parameter;
a request without it is rejected with a 422 validation error before the
handler body runs. -/
def authorizeEndpoint (params : List (String × String)) (fresh : String)
    (st : Store) (now : Nat) : Except HttpError (String × Store) :=
  match pLookup "redirect_uri" params with
  | some uri => .ok (authorize uri fresh st now)
  | none => .error ⟨422, "validation error"⟩

/-! ## The `/token` handler

`src/unnamed/part_006`, `mcp-server/src/auth/oauth.py`: look up
`auth_code:{code}`; the guard is
`if not stored_redirect or stored_redirect != redirect_uri` — a truthiness
test, so it raises `HTTPException(400, "Invalid code")` when the key is
absent (`None`), when the stored redirect is the falsy empty string, or when
it differs from the supplied `redirect_uri`; otherwise delete the key;
get-or-create the user with the fixed subject `"test_user"`; sign a JWT with
claims `sub`, `user_id`, `exp = now + 3600`; return the three-field JSON
body.  `freshId` is the primary key a newly created user row would get and
`secret` is `settings.jwt_secret`. -/

def token (code redirect_uri : String) (st : Store) (db : List UserRec)
    (freshId secret : String) (now : Nat) :
    Except HttpError (TokenSuccess × Store × List UserRec) :=
  match redisGet st ("auth_code:" ++ code) now with
  | none => .error ⟨400, "Invalid code"⟩
  | some stored =>
      if stored = "" ∨ stored ≠ redirect_uri then .error ⟨400, "Invalid code"⟩
      else
        let st1 := redisDel st ("auth_code:" ++ code)
        let ud := get_or_create_user db "test_user" freshId
        .ok (⟨⟨⟨ud.1.oauth_sub, ud.1.id, now + 3600⟩, secret⟩, "Bearer", 3600⟩,
             st1, ud.2)

/-- FastAPI layer for `/token`: `code` and `redirect_uri` are required
parameters; a request missing either (for instance one carrying only
`grant_type=refresh_token` and `refresh_token`) is rejected with a 422
validation error before the handler body runs, and unknown parameters are
ignored. -/
def tokenEndpoint (params : List (String × String)) (st : Store)
    (db : List UserRec) (freshId secret : String) (now : Nat) :
    Except HttpError (TokenSuccess × Store × List UserRec) :=
  match pLookup "code" params, pLookup "redirect_uri" params with
  | some c, some r => token c r st db freshId secret now
  | _, _ => .error ⟨422, "validation error"⟩

/-! ## The bearer-token middleware

`src/unnamed/part_006`, `mcp-server/src/auth/middleware.py`
(`get_current_user`): a header that is not `Bearer ` followed by a parseable
compact JWT yields 401 "Invalid token" (either via the prefix check or via
PyJWT's `InvalidTokenError` on garbage); otherwise the token is decoded and
the user row is looked up by the `user_id` claim.  There is no user
creation on this path. -/

inductive AuthHeader where
  | plain (s : String)
  | bearer (tok : Jwt)

def getCurrentUser (h : AuthHeader) (secret : String) (now : Nat)
    (db : List UserRec) : Except HttpError UserRec :=
  match h with
  | .plain _ => .error ⟨401, "Invalid token"⟩
  | .bearer tok =>
      match jwtDecode tok secret now with
      | .error .expiredSignature => .error ⟨401, "Token expired"⟩
      | .error .invalidToken => .error ⟨401, "Invalid token"⟩
      | .ok payload =>
          match findUserId payload.user_id db with
          | none => .error ⟨401, "User not found"⟩
          | some u => .ok u

/-! ## Interleaving model of concurrent code redemption

The `token` handler's consumption of a code is `stored = await redis.get(key)`
followed, after the synchronous checks, by `await redis.delete(key)` — two
separate store operations with a suspension point between them.  A redemption
request is therefore modelled as two atomic steps: step 1 performs the read,
step 2 performs the check (the same truthiness guard as in `token`: a `None`
or empty-string read, or a mismatch, fails) and on success the delete.  A
schedule interleaves the steps of two requests for the same code. -/

structure RefreshRec where
  tokenHash : String
  clientId : String
  userId : String
  revoked : Bool
deriving DecidableEq, Repr

/-- Modelled from the spec: the hash applied to a presented refresh-token
value before lookup.  The Revocation Handler lives in the `mcp-server`
backend, which is not among the source files; the spec only requires some
fixed hash, so an injective stand-in is used. -/
def hashTok (s : String) : String := "sha256:" ++ s

/-- Modelled from the spec: the Revocation Handler (`POST /revoke`,
spec section 4.4) is implemented in the `mcp-server` backend, which is not
among the source files.  Per the spec it hashes the presented token value,
looks up the RefreshToken by hash, marks it revoked when it is owned by the
presenting client, and returns 200 regardless of whether the token
existed. -/
def revoke (tokenVal clientId : String) (db : List RefreshRec) :
    Nat × List RefreshRec :=
  (200,
   db.map (fun rt =>
     if rt.tokenHash = hashTok tokenVal ∧ rt.clientId = clientId then
       { rt with revoked := true }
     else rt))

/-! ## Helper lemmas -/

theorem redisGet_redisDel (st : Store) (k : String) (now : Nat) :
    redisGet (redisDel st k) k now = none := by
  induction st with
  | nil => rfl
  | cons e rest ih =>
      by_cases h : e.1 = k
      · simp [redisDel, h, ih]
      · simp [redisDel, redisGet, h, ih]

theorem findUserSub_some (sub : String) (db : List UserRec) (u : UserRec)
    (h : findUserSub sub db = some u) : u.oauth_sub = sub := by
  induction db with
  | nil => cases h
  | cons v rest ih =>
      by_cases hv : v.oauth_sub = sub
      · rw [findUserSub, if_pos hv] at h
        cases h
        exact hv
      · rw [findUserSub, if_neg hv] at h
        exact ih h

theorem findUserSub_append_self (db : List UserRec) (sub fid : String)
    (h : findUserSub sub db = none) :
    findUserSub sub (db ++ [⟨fid, sub⟩]) = some ⟨fid, sub⟩ := by
  induction db with
  | nil => simp [findUserSub]
  | cons u rest ih =>
      by_cases hu : u.oauth_sub = sub
      · rw [findUserSub, if_pos hu] at h
        cases h
      · rw [findUserSub, if_neg hu] at h
        rw [List.cons_append, findUserSub, if_neg hu]
        exact ih h

theorem gocu_sub (db : List UserRec) (sub fid : String) :
    (get_or_create_user db sub fid).1.oauth_sub = sub := by
  unfold get_or_create_user
  cases hf : findUserSub sub db with
  | some u => exact findUserSub_some sub db u hf
  | none => rfl

theorem gocu_stable (db : List UserRec) (sub fid fid2 : String) :
    get_or_create_user (get_or_create_user db sub fid).2 sub fid2 =
      ((get_or_create_user db sub fid).1, (get_or_create_user db sub fid).2) := by
  unfold get_or_create_user
  cases hf : findUserSub sub db with
  | some u => simp [hf]
  | none => simp [findUserSub_append_self db sub fid hf]

theorem token_ok_iff (c r : String) (st : Store) (db : List UserRec)
    (fid sec : String) (now : Nat)
    (out : TokenSuccess × Store × List UserRec) :
    token c r st db fid sec now = .ok out ↔
      redisGet st ("auth_code:" ++ c) now = some r ∧ r ≠ "" ∧
      out = (⟨⟨⟨(get_or_create_user db "test_user" fid).1.oauth_sub,
                (get_or_create_user db "test_user" fid).1.id, now + 3600⟩, sec⟩,
             "Bearer", 3600⟩,
             redisDel st ("auth_code:" ++ c),
             (get_or_create_user db "test_user" fid).2) := by
  unfold token
  cases hg : redisGet st ("auth_code:" ++ c) now with
  | none => simp
  | some stored =>
      by_cases he : stored = r
      · subst he
        by_cases hs : stored = ""
        · simp [hs]
        · simp [hs, eq_comm]
      · simp [he]

theorem tokenEndpoint_ok {params : List (String × String)} {st : Store}
    {db : List UserRec} {fid sec : String} {now : Nat}
    {out : TokenSuccess × Store × List UserRec}
    (h : tokenEndpoint params st db fid sec now = .ok out) :
    ∃ c r, pLookup "code" params = some c ∧
      pLookup "redirect_uri" params = some r ∧
      token c r st db fid sec now = .ok out := by
  unfold tokenEndpoint at h
  cases hc : pLookup "code" params <;> rw [hc] at h
  · cases h
  case some c =>
    cases hr : pLookup "redirect_uri" params <;> rw [hr] at h
    · cases h
    case some r => exact ⟨c, r, rfl, rfl, h⟩

/-! ## Claims -/

/-- C1 (counterexample).  The claim states that a redemption attempt after a
prior successful redemption fails with `invalid_grant`.  Concretely: after
code `c1` is successfully redeemed (leaving the empty store), a second
redemption fails with HTTP 400 and detail `"Invalid code"`, which is not an
`invalid_grant` error body. -/
theorem claim_C1_counterexample :
    token "c1" "u" [("auth_code:c1", "u", 300)] [] "i1" "s1" 0 =
      .ok (⟨⟨⟨"test_user", "i1", 3600⟩, "s1"⟩, "Bearer", 3600⟩, [],
           [⟨"i1", "test_user"⟩]) ∧
    token "c1" "u" [] [] "i1" "s1" 1 = .error ⟨400, "Invalid code"⟩ ∧
    "Invalid code" ≠ "invalid_grant" := by
  refine ⟨rfl, rfl, by decide⟩

/-- C1 (amended).  At most one sequential redemption of an authorization code
ever succeeds: a successful redemption deletes the code's store entry, so any
later redemption of the same code against the resulting store fails — with
HTTP 400 `"Invalid code"`, not an `invalid_grant` error body — and a
redemption of a code whose store entry is absent or expired (Redis TTL
elapsed) likewise fails with HTTP 400 `"Invalid code"`. -/
theorem claim_C1_amended :
    (∀ c r st db fid sec now ts st1 db1,
        token c r st db fid sec now = .ok (ts, st1, db1) →
        ∀ r2 db2 fid2 sec2 now2,
          token c r2 st1 db2 fid2 sec2 now2 = .error ⟨400, "Invalid code"⟩)
    ∧ (∀ c r st db fid sec now,
        redisGet st ("auth_code:" ++ c) now = none →
        token c r st db fid sec now = .error ⟨400, "Invalid code"⟩) := by
  constructor
  · intro c r st db fid sec now ts st1 db1 h r2 db2 fid2 sec2 now2
    obtain ⟨-, -, hout⟩ := (token_ok_iff c r st db fid sec now (ts, st1, db1)).1 h
    have hst : st1 = redisDel st ("auth_code:" ++ c) :=
      congrArg (fun x => x.2.1) hout
    rw [hst]
    unfold token
    rw [redisGet_redisDel]
  · intro c r st db fid sec now h
    unfold token
    rw [h]

/-- C1 (witness).  The two hypotheses of the amended theorem are satisfiable:
a concrete successful redemption, and a concrete absent code. -/
theorem claim_C1_witness :
    token "c1" "u2" (redisDel [("auth_code:c1", "u", 300)] ("auth_code:" ++ "c1"))
        [] "i2" "s2" 7 = .error ⟨400, "Invalid code"⟩ ∧
    token "zzz" "u" [] [] "i" "s" 0 = .error ⟨400, "Invalid code"⟩ := by
  constructor
  · exact claim_C1_amended.1 "c1" "u" [("auth_code:c1", "u", 300)] [] "i1" "s1" 0
      ⟨⟨⟨"test_user", "i1", 3600⟩, "s1"⟩, "Bearer", 3600⟩
      (redisDel [("auth_code:c1", "u", 300)] ("auth_code:" ++ "c1"))
      [⟨"i1", "test_user"⟩] (by rfl) "u2" [] "i2" "s2" 7
  · exact claim_C1_amended.2 "zzz" "u" [] [] "i" "s" 0 rfl

/-- C3 (counterexample).  The claim states that the handler verifies a PKCE
proof and that an exchange without a matching `code_verifier` fails with no
token issued.  Concretely: a request carrying no `code_verifier` parameter at
all succeeds and an access token is issued — the handler reads no PKCE
material. -/
theorem claim_C3_counterexample :
    pLookup "code_verifier" [("code", "c1"), ("redirect_uri", "u")] = none ∧
    tokenEndpoint [("code", "c1"), ("redirect_uri", "u")]
        [("auth_code:c1", "u", 300)] [] "i1" "s" 0 =
      .ok (⟨⟨⟨"test_user", "i1", 3600⟩, "s"⟩, "Bearer", 3600⟩, [],
           [⟨"i1", "test_user"⟩]) := by
  exact ⟨rfl, rfl⟩

/-- C3 (amended).  The token handler performs no PKCE verification: no
`code_verifier` is read and no `code_challenge` is stored with the code; an
authorization-code exchange succeeds exactly when the code's store entry is
unexpired and holds the supplied `redirect_uri` and that stored redirect is
non-empty (the handler's `not stored_redirect` truthiness guard),
independently of any PKCE material. -/
theorem claim_C3_amended (c r : String) (st : Store) (db : List UserRec)
    (fid sec : String) (now : Nat) :
    (∃ out, token c r st db fid sec now = .ok out) ↔
      (redisGet st ("auth_code:" ++ c) now = some r ∧ r ≠ "") := by
  constructor
  · rintro ⟨out, h⟩
    obtain ⟨h1, h2, -⟩ := (token_ok_iff c r st db fid sec now out).1 h
    exact ⟨h1, h2⟩
  · rintro ⟨h1, h2⟩
    exact ⟨_, (token_ok_iff c r st db fid sec now _).2 ⟨h1, h2, rfl⟩⟩

/-- C4 (counterexample).  The claim states that the authorization handler
validates `client_id`, the registered redirect URIs and `code_challenge`, and
issues no code when a check fails.  Concretely: a request carrying neither
`client_id` nor `code_challenge`, with an arbitrary unregistered redirect
URI, is answered with a redirect carrying a fresh code, and the code is
stored. -/
theorem claim_C4_counterexample :
    pLookup "client_id" [("redirect_uri", "https://evil.example/cb")] = none ∧
    pLookup "code_challenge" [("redirect_uri", "https://evil.example/cb")] = none ∧
    authorizeEndpoint [("redirect_uri", "https://evil.example/cb")] "c1" [] 0 =
      .ok ("https://evil.example/cb?code=c1",
           [("auth_code:c1", "https://evil.example/cb", 300)]) := by
  exact ⟨rfl, rfl, rfl⟩

/-- C4 (amended).  The authorization handler validates nothing: for every
request supplying a `redirect_uri` (its only parameter — `client_id` and
`code_challenge` are neither required nor examined), it stores a fresh code
with a 300-second TTL and responds with a redirect to `redirect_uri` carrying
the code; no error path exists apart from the missing-parameter validation
error. -/
theorem claim_C4_amended (params : List (String × String)) (fresh : String)
    (st : Store) (now : Nat) (uri : String)
    (h : pLookup "redirect_uri" params = some uri) :
    authorizeEndpoint params fresh st now =
      .ok (uri ++ "?code=" ++ fresh,
           ("auth_code:" ++ fresh, uri, now + 300)
             :: redisDel st ("auth_code:" ++ fresh)) := by
  simp [authorizeEndpoint, h, authorize, redisSetex]

/-- C4 (witness).  The amended theorem instantiated at a concrete request. -/
theorem claim_C4_witness :
    authorizeEndpoint [("redirect_uri", "https://app.example/cb")] "c7" [] 5 =
      .ok ("https://app.example/cb?code=c7",
           [("auth_code:c7", "https://app.example/cb", 305)]) := by
  exact claim_C4_amended [("redirect_uri", "https://app.example/cb")] "c7" [] 5
    "https://app.example/cb" rfl

/-- C5 (counterexample).  The claim states that presenting a refresh_token
grant rotates the refresh token and mints new tokens.  Concretely: a request
presenting `grant_type=refresh_token` with a refresh token value is rejected
with a 422 validation error (the endpoint's only parameters are `code` and
`redirect_uri`); nothing is minted, revoked or rotated. -/
theorem claim_C5_counterexample :
    pLookup "grant_type" [("grant_type", "refresh_token"), ("refresh_token", "r1")]
      = some "refresh_token" ∧
    pLookup "refresh_token" [("grant_type", "refresh_token"), ("refresh_token", "r1")]
      = some "r1" ∧
    tokenEndpoint [("grant_type", "refresh_token"), ("refresh_token", "r1")]
        [] [] "i" "s" 0 = .error ⟨422, "validation error"⟩ := by
  exact ⟨rfl, rfl, rfl⟩

/-- C5 (amended).  The token endpoint supports no refresh_token grant: its
only parameters are `code` and `redirect_uri`, every request lacking a `code`
parameter (in particular any refresh_token-grant request) fails with a 422
validation error, no refresh token is ever minted and no rotation path
exists. -/
theorem claim_C5_amended (params : List (String × String)) (st : Store)
    (db : List UserRec) (fid sec : String) (now : Nat)
    (h : pLookup "code" params = none) :
    tokenEndpoint params st db fid sec now = .error ⟨422, "validation error"⟩ := by
  unfold tokenEndpoint
  rw [h]

/-- C5 (witness).  The amended theorem instantiated at a concrete
refresh_token-grant request against a non-empty store. -/
theorem claim_C5_witness :
    tokenEndpoint [("grant_type", "refresh_token"), ("refresh_token", "r1")]
        [("auth_code:c1", "u", 300)] [] "i" "s" 0 =
      .error ⟨422, "validation error"⟩ := by
  exact claim_C5_amended
    [("grant_type", "refresh_token"), ("refresh_token", "r1")]
    [("auth_code:c1", "u", 300)] [] "i" "s" 0 rfl

/-- C6 (confirmed).  The bearer-token middleware rejects every access token
whose expiry has passed even when its signature is valid (the signing key
equals the verification secret), with 401 `"Token expired"`; a token whose
signature does not verify is rejected with 401 `"Invalid token"`, a
malformed header with 401 `"Invalid token"`, and a missing user row with 401
`"User not found"` — so the expired rejection is distinguishable from every
other rejection reason. -/
theorem claim_C6 :
    (∀ p sec now db, p.exp ≤ now →
        getCurrentUser (.bearer ⟨p, sec⟩) sec now db = .error ⟨401, "Token expired"⟩)
    ∧ (∀ p k sec now db, k ≠ sec →
        getCurrentUser (.bearer ⟨p, k⟩) sec now db = .error ⟨401, "Invalid token"⟩)
    ∧ (∀ s sec now db,
        getCurrentUser (.plain s) sec now db = .error ⟨401, "Invalid token"⟩)
    ∧ ("Token expired" ≠ "Invalid token" ∧ "Token expired" ≠ "User not found") := by
  refine ⟨?_, ?_, ?_, by decide, by decide⟩
  · intro p sec now db h
    simp [getCurrentUser, jwtDecode, h]
  · intro p k sec now db h
    simp [getCurrentUser, jwtDecode, h]
  · intro s sec now db
    rfl

/-- C6 (witness).  A concrete expired-but-correctly-signed token is rejected
as expired, and a concrete wrongly-signed token as invalid. -/
theorem claim_C6_witness :
    getCurrentUser (.bearer ⟨⟨"test_user", "i1", 10⟩, "s"⟩) "s" 10 [] =
      .error ⟨401, "Token expired"⟩ ∧
    getCurrentUser (.bearer ⟨⟨"test_user", "i1", 10⟩, "k"⟩) "s" 0 [] =
      .error ⟨401, "Invalid token"⟩ :=
  ⟨claim_C6.1 ⟨"test_user", "i1", 10⟩ "s" 10 [] (by decide),
   claim_C6.2.1 ⟨"test_user", "i1", 10⟩ "k" "s" 0 [] (by decide)⟩

/-- C7 (counterexample).  The claim states that the middleware resolves the
subject by get-or-create, so a valid token never fails for lack of a user
row.  Concretely: a token that passes signature and expiry checks, presented
against an empty user table, is rejected with 401 `"User not found"` and no
user is created. -/
theorem claim_C7_counterexample :
    jwtDecode ⟨⟨"test_user", "i1", 100⟩, "s"⟩ "s" 0 = .ok ⟨"test_user", "i1", 100⟩ ∧
    getCurrentUser (.bearer ⟨⟨"test_user", "i1", 100⟩, "s"⟩) "s" 0 [] =
      .error ⟨401, "User not found"⟩ := by
  exact ⟨rfl, rfl⟩

/-- C7 (amended).  For a bearer token that passes signature and expiry
checks, the middleware looks the user up by the token's `user_id` claim and
performs no creation: when no such user row exists it rejects with 401
`"User not found"`, and when one exists it returns exactly that row
(get-or-create happens only in the token endpoint, with the fixed subject
`"test_user"`). -/
theorem claim_C7_amended (p : JwtPayload) (sec : String) (now : Nat)
    (db : List UserRec) (hexp : now < p.exp) :
    (findUserId p.user_id db = none →
        getCurrentUser (.bearer ⟨p, sec⟩) sec now db = .error ⟨401, "User not found"⟩)
    ∧ (∀ u, findUserId p.user_id db = some u →
        getCurrentUser (.bearer ⟨p, sec⟩) sec now db = .ok u) := by
  have hd : jwtDecode ⟨p, sec⟩ sec now = .ok p := by
    simp [jwtDecode, not_le.mpr hexp]
  constructor
  · intro hf
    simp [getCurrentUser, hd, hf]
  · intro u hf
    simp [getCurrentUser, hd, hf]

/-- C7 (witness).  The amended theorem instantiated at a user table missing
the claimed user, and at one containing it. -/
theorem claim_C7_witness :
    getCurrentUser (.bearer ⟨⟨"test_user", "i1", 100⟩, "s"⟩) "s" 0 [⟨"i2", "x"⟩] =
      .error ⟨401, "User not found"⟩ ∧
    getCurrentUser (.bearer ⟨⟨"test_user", "i1", 100⟩, "s"⟩) "s" 0
        [⟨"i1", "test_user"⟩] = .ok ⟨"i1", "test_user"⟩ :=
  ⟨(claim_C7_amended ⟨"test_user", "i1", 100⟩ "s" 0 [⟨"i2", "x"⟩] (by decide)).1 rfl,
   (claim_C7_amended ⟨"test_user", "i1", 100⟩ "s" 0 [⟨"i1", "test_user"⟩]
      (by decide)).2 ⟨"i1", "test_user"⟩ rfl⟩

/-- C8 (counterexample).  The claim states that every successful exchange
returns a JSON body with `access_token`, `refresh_token`, `token_type` and
`expires_in`.  Concretely: a successful exchange returns a body whose keys
are `access_token`, `token_type` and `expires_in` only — it has no
`refresh_token` member. -/
theorem claim_C8_counterexample :
    tokenEndpoint [("code", "c2"), ("redirect_uri", "u")]
        [("auth_code:c2", "u", 300)] [] "i1" "s" 0 =
      .ok (⟨⟨⟨"test_user", "i1", 3600⟩, "s"⟩, "Bearer", 3600⟩, [],
           [⟨"i1", "test_user"⟩]) ∧
    pLookup "refresh_token"
        (tokenJson ⟨⟨⟨"test_user", "i1", 3600⟩, "s"⟩, "Bearer", 3600⟩) = none := by
  exact ⟨rfl, rfl⟩

/-- C8 (amended).  Every successful token exchange returns a JSON body
containing `access_token`, `token_type` (always `"Bearer"`) and `expires_in`
(always `3600`), and containing no `refresh_token` member. -/
theorem claim_C8_amended (params : List (String × String)) (st : Store)
    (db : List UserRec) (fid sec : String) (now : Nat)
    (ts : TokenSuccess) (st1 : Store) (db1 : List UserRec)
    (h : tokenEndpoint params st db fid sec now = .ok (ts, st1, db1)) :
    pLookup "access_token" (tokenJson ts) = some (.tok ts.access_token) ∧
    pLookup "token_type" (tokenJson ts) = some (.str "Bearer") ∧
    pLookup "expires_in" (tokenJson ts) = some (.num 3600) ∧
    pLookup "refresh_token" (tokenJson ts) = none := by
  obtain ⟨c, r, -, -, ht⟩ := tokenEndpoint_ok h
  obtain ⟨-, -, hout⟩ :=
    (token_ok_iff c r st db fid sec now (ts, st1, db1)).1 ht
  simp only [Prod.mk.injEq] at hout
  obtain ⟨hts, -, -⟩ := hout
  subst hts
  exact ⟨rfl, rfl, rfl, rfl⟩

/-- C8 (witness).  The amended theorem instantiated at a concrete successful
exchange. -/
theorem claim_C8_witness :
    pLookup "access_token"
        (tokenJson ⟨⟨⟨"test_user", "i1", 3600⟩, "s"⟩, "Bearer", 3600⟩)
      = some (.tok ⟨⟨"test_user", "i1", 3600⟩, "s"⟩) ∧
    pLookup "token_type"
        (tokenJson ⟨⟨⟨"test_user", "i1", 3600⟩, "s"⟩, "Bearer", 3600⟩)
      = some (.str "Bearer") ∧
    pLookup "expires_in"
        (tokenJson ⟨⟨⟨"test_user", "i1", 3600⟩, "s"⟩, "Bearer", 3600⟩)
      = some (.num 3600) ∧
    pLookup "refresh_token"
        (tokenJson ⟨⟨⟨"test_user", "i1", 3600⟩, "s"⟩, "Bearer", 3600⟩) = none :=
  claim_C8_amended [("code", "c3"), ("redirect_uri", "u")]
    [("auth_code:c3", "u", 300)] [] "i1" "s" 0
    ⟨⟨⟨"test_user", "i1", 3600⟩, "s"⟩, "Bearer", 3600⟩ []
    [⟨"i1", "test_user"⟩] (by rfl)

/-- C9 (spec-modelled, confirmed).  Against the Revocation Handler modelled
from the spec: every revocation request returns status 200 — the same
success response whether the presented token value matches a stored active
record, an already-revoked record, or no record at all — and revoking the
same token value twice leaves the refresh-token store exactly as revoking it
once does. -/
theorem claim_C9 :
    ∀ t c db, (revoke t c db).1 = 200 ∧
      revoke t c (revoke t c db).2 = revoke t c db := by
  intro t c db
  refine ⟨rfl, ?_⟩
  unfold revoke
  simp only [List.map_map, Prod.mk.injEq, true_and]
  refine List.map_congr_left ?_
  intro rt _
  show (fun rt =>
      if rt.tokenHash = hashTok t ∧ rt.clientId = c then
        { rt with revoked := true } else rt)
    ((fun rt =>
      if rt.tokenHash = hashTok t ∧ rt.clientId = c then
        { rt with revoked := true } else rt) rt) = _
  by_cases hcond : rt.tokenHash = hashTok t ∧ rt.clientId = c
  · simp [hcond]
  · simp [hcond]

/-- C10 (confirmed).  Every successful token exchange binds the fixed subject
`"test_user"`: the minted access token's `sub` claim is `"test_user"`
regardless of the code, redirect URI or prior state; and two successful
exchanges chained through the same user table (the second starting from the
first one's resulting table) mint access tokens carrying the same internal
`user_id`. -/
theorem claim_C10 :
    (∀ c r st db fid sec now ts st1 db1,
        token c r st db fid sec now = .ok (ts, st1, db1) →
        ts.access_token.payload.sub = "test_user")
    ∧ (∀ c r st db fid sec now ts st1 db1 c2 r2 st2 fid2 sec2 now2 ts2 st3 db2,
        token c r st db fid sec now = .ok (ts, st1, db1) →
        token c2 r2 st2 db1 fid2 sec2 now2 = .ok (ts2, st3, db2) →
        ts2.access_token.payload.user_id = ts.access_token.payload.user_id) := by
  constructor
  · intro c r st db fid sec now ts st1 db1 h
    obtain ⟨-, -, hout⟩ :=
      (token_ok_iff c r st db fid sec now (ts, st1, db1)).1 h
    simp only [Prod.mk.injEq] at hout
    obtain ⟨hts, -, -⟩ := hout
    subst hts
    exact gocu_sub db "test_user" fid
  · intro c r st db fid sec now ts st1 db1 c2 r2 st2 fid2 sec2 now2 ts2 st3 db2 h1 h2
    obtain ⟨-, -, hout1⟩ :=
      (token_ok_iff c r st db fid sec now (ts, st1, db1)).1 h1
    obtain ⟨-, -, hout2⟩ :=
      (token_ok_iff c2 r2 st2 db1 fid2 sec2 now2 (ts2, st3, db2)).1 h2
    simp only [Prod.mk.injEq] at hout1 hout2
    obtain ⟨hts1, -, hdb1⟩ := hout1
    obtain ⟨hts2, -, -⟩ := hout2
    subst hdb1
    subst hts1
    subst hts2
    show (get_or_create_user (get_or_create_user db "test_user" fid).2
        "test_user" fid2).1.id = (get_or_create_user db "test_user" fid).1.id
    rw [gocu_stable db "test_user" fid fid2]

/-- C10 (witness).  Two concrete chained successful exchanges: the first
creates the `"test_user"` row, the second finds it again; both minted tokens
carry subject `"test_user"` and the same `user_id`. -/
theorem claim_C10_witness :
    (⟨⟨⟨"test_user", "i1", 3600⟩, "s"⟩, "Bearer", 3600⟩
        : TokenSuccess).access_token.payload.sub = "test_user" ∧
    (⟨⟨⟨"test_user", "i1", 3650⟩, "s"⟩, "Bearer", 3600⟩
        : TokenSuccess).access_token.payload.user_id =
      (⟨⟨⟨"test_user", "i1", 3600⟩, "s"⟩, "Bearer", 3600⟩
        : TokenSuccess).access_token.payload.user_id :=
  ⟨claim_C10.1 "c1" "u" [("auth_code:c1", "u", 300)] [] "i1" "s" 0
      ⟨⟨⟨"test_user", "i1", 3600⟩, "s"⟩, "Bearer", 3600⟩ []
      [⟨"i1", "test_user"⟩] (by rfl),
   claim_C10.2 "c1" "u" [("auth_code:c1", "u", 300)] [] "i1" "s" 0
      ⟨⟨⟨"test_user", "i1", 3600⟩, "s"⟩, "Bearer", 3600⟩ []
      [⟨"i1", "test_user"⟩] "c2" "u" [("auth_code:c2", "u", 300)] "i9" "s" 50
      ⟨⟨⟨"test_user", "i1", 3650⟩, "s"⟩, "Bearer", 3600⟩ []
      [⟨"i1", "test_user"⟩] (by rfl) (by rfl)⟩

end SIN
